import Mathlib

set_option autoImplicit false

namespace VSA

/-- A JSON-like value in a request or response body, or in a stored record
field: the dynamic values the Python source passes around (`None`, ints,
strings, nested dicts, lists). -/
inductive Value where
  | null : Value
  | int : Int → Value
  | str : String → Value
  | list : List Value → Value
  | dict : List (String × Value) → Value
  deriving Repr

mutual

/-- Structural equality of two values, as Python `==` on these shapes
(numbers with numbers, strings with strings, element-wise on containers). -/
def Value.beq : Value → Value → Bool
  | .null, .null => true
  | .int a, .int b => a == b
  | .str a, .str b => a == b
  | .list a, .list b => Value.beqList a b
  | .dict a, .dict b => Value.beqDict a b
  | _, _ => false

/-- Element-wise equality of two lists of values. -/
def Value.beqList : List Value → List Value → Bool
  | [], [] => true
  | x :: xs, y :: ys => Value.beq x y && Value.beqList xs ys
  | _, _ => false

/-- Entry-wise equality of two dicts (same bindings in the same order). -/
def Value.beqDict : List (String × Value) → List (String × Value) → Bool
  | [], [] => true
  | (k₁, x) :: xs, (k₂, y) :: ys => k₁ == k₂ && Value.beq x y && Value.beqDict xs ys
  | _, _ => false

end

/-- A Python dict with string keys, as an association list (first binding of a
key wins, as in repeated lookups of a Python dict that never rebinds). -/
abbrev Dict := List (String × Value)

/-- `d.get(k)` / `k in d`: first value bound to `k`, if any. -/
def Dict.get? (d : Dict) (k : String) : Option Value :=
  match d with
  | [] => none
  | (k₁, v) :: rest => if k₁ = k then some v else Dict.get? rest k

/-- Python dict assignment `d[k] = v`: replace the binding in place if the key
is present, else append it. -/
def Dict.set (d : Dict) (k : String) (v : Value) : Dict :=
  match d with
  | [] => [(k, v)]
  | (k₁, w) :: rest => if k₁ = k then (k₁, v) :: rest else (k₁, w) :: Dict.set rest k v

/-- The keys of a dict, in order. -/
def Dict.keys (d : Dict) : List String := d.map Prod.fst

/-- Python truth test on a dict: `if not body` is taken when the dict is empty. -/
def Dict.isEmpty : Dict → Bool
  | [] => true
  | _ :: _ => false

/-- The two parent-link fields of a child record; `VsaVolumeController` reads
`from_vsa_id`, `VsaDriveController` reads `to_vsa_id` (their `self.direction`). -/
inductive Direction where
  | from_vsa_id : Direction
  | to_vsa_id : Direction
  deriving Repr, DecidableEq

/-- The per-kind configuration a `VsaVolumeDriveController` subclass sets in
its constructor: the owning-link field selector and the external
plural/singular body names (`self.direction`, `self.objects`, `self.object`). -/
structure DirectionPolicy where
  direction : Direction
  objects : String
  object : String
  deriving Repr, DecidableEq

/-- `VsaVolumeController.__init__`: volumes are owned through `from_vsa_id`. -/
def volumePolicy : DirectionPolicy :=
  { direction := .from_vsa_id, objects := "volumes", object := "volume" }

/-- `VsaDriveController.__init__`: drives are owned through `to_vsa_id`. -/
def drivePolicy : DirectionPolicy :=
  { direction := .to_vsa_id, objects := "drives", object := "drive" }

/-- A stored child record (volume or drive row), with the fields this
controller file reads: identity, display metadata, size/status/zone/time,
the two directional parent links, and the provider credential columns
touched by the update whitelist. -/
structure VolumeRecord where
  id : Int
  name : Value
  display_name : Value
  display_description : Value
  size : Value
  status : Value
  availability_zone : Value
  created_at : Value
  from_vsa_id : Value
  to_vsa_id : Value
  provider_location : Value
  provider_auth : Value
  deriving Repr

/-- `volume_ref[self.direction]`: read the owning-link field selected by the
policy's direction. -/
def VolumeRecord.link (v : VolumeRecord) : Direction → Value
  | .from_vsa_id => v.from_vsa_id
  | .to_vsa_id => v.to_vsa_id

/-- A stored aggregate (VSA) record, with the fields `_vsa_view` reads.
`vsa_instance_type` is the joined type descriptor: absent (`None`) or a dict. -/
structure VsaRecord where
  id : Int
  name : Value
  display_name : Value
  display_description : Value
  created_at : Value
  status : Value
  vsa_instance_type : Option Dict
  vc_count : Value
  vol_count : Value
  deriving Repr

/-- What a controller method hands back to the WSGI layer: a body dict, a
bare HTTP success, one of the typed fault responses, or — when the Python
would raise an exception nothing in the controller catches — an unhandled
fault escaping to the transport layer (`crash`, tagged with the Python
exception kind). -/
inductive Response where
  | ok : Dict → Response
  | accepted : Response
  | notFound : Response
  | badRequest : Response
  | unprocessable : Response
  | crash : String → Response
  deriving Repr

/-- The typed client-error responses (`faults.Fault(...)` wrappers): these
reach the caller as well-formed HTTP errors, unlike `crash`. -/
def Response.isClientError : Response → Bool
  | .notFound => true
  | .badRequest => true
  | .unprocessable => true
  | _ => false

/-- One call into an external collaborator (persistence or catalog), recorded
in order so theorems can say which collaborators an operation touched and
with which arguments. -/
inductive Call where
  | volumeGet : String → Call
  | volumeCreate : Value → Value → Value → String → Call
  | volumeUpdate : String → Dict → Call
  | volumeDelete : String → Call
  | vsaCreate : Value → Value → Value → Value → Dict → Value → Call
  | vsaDelete : String → Call
  | instanceTypeLookup : Value → Call
  deriving Repr

/-- The value under a key when it is a dict, else nothing (Python indexing or
`.get` on a non-dict raises, which callers model as a crash). -/
def Value.asDict? : Value → Option Dict
  | .dict d => some d
  | _ => none

/-- Read a nonempty run of decimal digits as a number; nothing on a non-digit
or on an empty run. -/
def digitsAcc? : List Char → Nat → Option Nat
  | [], acc => some acc
  | c :: cs, acc =>
    if c.isDigit then digitsAcc? cs (acc * 10 + (c.toNat - 48)) else none

/-- Python `int(s)` on a decimal string (an optional sign then digits): the
integer when the string parses, nothing when `int` would raise `ValueError`. -/
def pyInt? (s : String) : Option Int :=
  match s.data with
  | [] => none
  | c :: cs =>
    if c = '-' then
      match cs with
      | [] => none
      | _ => (digitsAcc? cs 0).map (fun n => -(n : Int))
    else (digitsAcc? (c :: cs) 0).map (fun n => (n : Int))

/-- Modelled from the spec: `volume.API().get` (nova.volume, not under src/),
the fetch-by-id persistence call — resolves a child id to its stored record,
raising NotFound (here: `none`) when no record carries the id. -/
def volume_api_get (store : List VolumeRecord) (id : String) : Option VolumeRecord :=
  match pyInt? id with
  | none => none
  | some n => store.find? (fun v => v.id == n)

/-- Modelled from the spec: `volume.API().create` (not under src/) — creates a
child record of the given size and display metadata with the parent id
attached as the owning from-link ("persistence receives a create call with
parent id ... attached as the owning link"). -/
def volume_api_create (newId : Int) (size display_name display_description : Value)
    (from_vsa : String) : VolumeRecord :=
  { id := newId, name := .str ("volume-" ++ toString newId),
    display_name := display_name, display_description := display_description,
    size := size, status := .str "creating", availability_zone := .null,
    created_at := .str "now",
    from_vsa_id := (pyInt? from_vsa).elim Value.null Value.int,
    to_vsa_id := .null, provider_location := .null, provider_auth := .null }

/-- Set one internal field of a record from a binding of the update changes
map (only the whitelisted snake_case field names ever reach this). -/
def applyField (v : VolumeRecord) (kv : String × Value) : VolumeRecord :=
  match kv.1 with
  | "display_name" => { v with display_name := kv.2 }
  | "display_description" => { v with display_description := kv.2 }
  | "status" => { v with status := kv.2 }
  | "provider_location" => { v with provider_location := kv.2 }
  | "provider_auth" => { v with provider_auth := kv.2 }
  | _ => v

/-- Modelled from the spec: `volume.API().update` (not under src/), the
update-fields persistence call — sets the given fields on the record with the
id, raising NotFound (here: `none`) when the id resolves to nothing. -/
def volume_api_update (store : List VolumeRecord) (id : String) (changes : Dict) :
    Option (List VolumeRecord) :=
  match pyInt? id with
  | none => none
  | some n =>
    if store.any (fun v => v.id == n) then
      some (store.map (fun v => if v.id == n then changes.foldl applyField v else v))
    else none

/-- Modelled from the spec: `volume.API().delete` (not under src/) — removes
the record with the id, raising NotFound (here: `none`) when absent. -/
def volume_api_delete (store : List VolumeRecord) (id : String) :
    Option (List VolumeRecord) :=
  match pyInt? id with
  | none => none
  | some n =>
    if store.any (fun v => v.id == n) then
      some (store.filter (fun v => !(v.id == n)))
    else none

/-- Modelled from the spec: `volumes.translate_volume_summary_view` (the
volumes extension module, not under src/). Per the spec the child view carries
id, name, displayName, displayDescription, status, size, availabilityZone and
createdAt, and no internal fields (direction links, provider credentials). -/
def translate_volume_summary_view (vol : VolumeRecord) : Dict :=
  [("id", .int vol.id), ("name", vol.name),
   ("displayName", vol.display_name),
   ("displayDescription", vol.display_description),
   ("status", vol.status), ("size", vol.size),
   ("availabilityZone", vol.availability_zone),
   ("createdAt", vol.created_at)]

/-- Modelled from the spec: `volumes.translate_volume_detail_view` (not under
src/); the spec names no detail-only child field, so the detailed child view
carries the same fields as the summary view. -/
def translate_volume_detail_view (vol : VolumeRecord) : Dict :=
  translate_volume_summary_view vol

/-- `VsaVolumeDriveController._translation`: pick the summary or detail
translation by the `details` flag, then add the owning-link value under the
external key `vsaId` (the `vsa_id` argument itself is not read, matching the
source). -/
def translation (p : DirectionPolicy) (vol : VolumeRecord) (_vsa_id : String)
    (details : Bool) : Dict :=
  let d := if details then translate_volume_detail_view vol
           else translate_volume_summary_view vol
  Dict.set d "vsaId" (vol.link p.direction)

/-- Outcome of `_check_volume_ownership`: passes, or raises NotFound (missing
record), Invalid (owning link differs from the coerced parent id), or an
uncaught ValueError from `int(vsa_id)` on a non-numeric parent id. -/
inductive CheckResult where
  | ok : CheckResult
  | notFound : CheckResult
  | invalid : CheckResult
  | valueError : CheckResult
  deriving Repr, DecidableEq

/-- `VsaVolumeDriveController._check_volume_ownership`: fetch the record by
child id (NotFound propagates), then compare its owning-link field against
`int(vsa_id)`; any difference — including a null link — raises Invalid. -/
def check_volume_ownership (p : DirectionPolicy) (store : List VolumeRecord)
    (vsa_id id : String) : CheckResult :=
  match volume_api_get store id with
  | none => .notFound
  | some vol =>
    match pyInt? vsa_id with
    | none => .valueError
    | some n => if Value.beq (vol.link p.direction) (.int n) then .ok else .invalid

/-- Modelled from the spec: the parent class `volumes.VolumeController.show`
(not under src/) that `VsaVolumeDriveController.show` delegates to after the
ownership check — fetch full detail for the id and project it with
`detailed=true` under the singular name; NotFound when the id resolves to
nothing. -/
def base_show (p : DirectionPolicy) (store : List VolumeRecord) (id : String) :
    Response × List Call :=
  match volume_api_get store id with
  | none => (.notFound, [.volumeGet id])
  | some vol => (.ok [(p.object, .dict (translation p vol id true))], [.volumeGet id])

/-- Modelled from the spec: the parent class `volumes.VolumeController.delete`
(not under src/) that `VsaVolumeDriveController.delete` delegates to after the
ownership check — delegate to persistence delete; NotFound when the id
resolves to nothing, an accepted response on success. -/
def base_delete (store : List VolumeRecord) (id : String) : Response × List Call :=
  match volume_api_delete store id with
  | none => (.notFound, [.volumeDelete id])
  | some _ => (.accepted, [.volumeDelete id])

/-- `VsaVolumeDriveController.show`: ownership check first (NotFound → 404
fault, Invalid → 400 fault, a non-numeric parent id crashes with the uncaught
ValueError), then delegate to the parent class show. -/
def child_show (p : DirectionPolicy) (store : List VolumeRecord) (vsa_id id : String) :
    Response × List Call :=
  match check_volume_ownership p store vsa_id id with
  | .notFound => (.notFound, [.volumeGet id])
  | .invalid => (.badRequest, [.volumeGet id])
  | .valueError => (.crash "ValueError", [.volumeGet id])
  | .ok =>
    let r := base_show p store id
    (r.fst, .volumeGet id :: r.snd)

/-- `VsaVolumeDriveController.create`: a falsy body (absent or empty) is a 422
fault; then `body[self.object]` and `vol['size']` are read with no handler, so
a missing wrapping key, a non-dict payload or a missing size field raises an
uncaught KeyError/TypeError; otherwise persistence creates the record with the
parent id as the from-link and the result is projected with `detailed=true`. -/
def child_create (p : DirectionPolicy) (_store : List VolumeRecord) (newId : Int)
    (vsa_id : String) (body : Option Dict) : Response × List Call :=
  match body with
  | none => (.unprocessable, [])
  | some b =>
    if b.isEmpty then (.unprocessable, [])
    else
      match Dict.get? b p.object with
      | none => (.crash "KeyError", [])
      | some v =>
        match v.asDict? with
        | none => (.crash "TypeError", [])
        | some vol =>
          match Dict.get? vol "size" with
          | none => (.crash "KeyError", [])
          | some size =>
            let dn := (Dict.get? vol "displayName").getD .null
            let dd := (Dict.get? vol "displayDescription").getD .null
            let newVol := volume_api_create newId size dn dd vsa_id
            (.ok [(p.object, .dict (translation p newVol vsa_id true))],
             [.volumeCreate size dn dd vsa_id])

/-- The update whitelist of `VsaVolumeDriveController.update`: the internal
snake_case field names whose payload values are copied into the changes map. -/
def updatable_fields : List String :=
  ["display_name", "display_description", "status",
   "provider_location", "provider_auth"]

/-- The changes map the update loop builds: for each whitelisted field in
order, copy the payload's binding when present (the source's
`for field in updatable_fields: if field in vol: changes[field] = vol[field]`). -/
def buildChanges (vol : Dict) : Dict :=
  updatable_fields.filterMap (fun f => (Dict.get? vol f).map (fun w => (f, w)))

/-- `VsaVolumeDriveController.update`: ownership check first (NotFound → 404,
Invalid → 400, non-numeric parent id → uncaught ValueError); only then is
`body[self.object]` read, with no handler, so an absent body or missing
wrapping key raises uncaught; the changes map keeps exactly the whitelisted
fields and is handed to persistence update, whose NotFound maps to 404 and
whose success is an accepted response. -/
def child_update (p : DirectionPolicy) (store : List VolumeRecord)
    (vsa_id id : String) (body : Option Dict) : Response × List Call :=
  match check_volume_ownership p store vsa_id id with
  | .notFound => (.notFound, [.volumeGet id])
  | .invalid => (.badRequest, [.volumeGet id])
  | .valueError => (.crash "ValueError", [.volumeGet id])
  | .ok =>
    match body with
    | none => (.crash "TypeError", [.volumeGet id])
    | some b =>
      match Dict.get? b p.object with
      | none => (.crash "KeyError", [.volumeGet id])
      | some v =>
        match v.asDict? with
        | none => (.crash "TypeError", [.volumeGet id])
        | some vol =>
          let changes := buildChanges vol
          match volume_api_update store id changes with
          | none => (.notFound, [.volumeGet id, .volumeUpdate id changes])
          | some _ => (.accepted, [.volumeGet id, .volumeUpdate id changes])

/-- `VsaVolumeDriveController.delete`: ownership check first (NotFound → 404,
Invalid → 400, non-numeric parent id → uncaught ValueError), then delegate to
the parent class delete. -/
def child_delete (p : DirectionPolicy) (store : List VolumeRecord)
    (vsa_id id : String) : Response × List Call :=
  match check_volume_ownership p store vsa_id id with
  | .notFound => (.notFound, [.volumeGet id])
  | .invalid => (.badRequest, [.volumeGet id])
  | .valueError => (.crash "ValueError", [.volumeGet id])
  | .ok =>
    let r := base_delete store id
    (r.fst, .volumeGet id :: r.snd)

/-- `VsaDriveController.create`: unconditionally a 400 fault ("should be done
through VSA APIs"); no collaborator is touched. -/
def drive_create (_store : List VolumeRecord) (_vsa_id : String)
    (_body : Option Dict) : Response × List Call :=
  (.badRequest, [])

/-- `VsaDriveController.update`: unconditionally a 400 fault ("should be done
through VSA APIs"); no collaborator is touched. -/
def drive_update (_store : List VolumeRecord) (_vsa_id _id : String)
    (_body : Option Dict) : Response × List Call :=
  (.badRequest, [])

/-- `VsaController._vsa_view`: map a stored aggregate record to its external
dict. The `details` flag is accepted and never read, matching the source. The
`vcType` entry is the type descriptor's name when the descriptor is truthy
(present and non-empty), else an explicit null. -/
def vsa_view (vsa : VsaRecord) (_details : Bool) : Dict :=
  [("id", .int vsa.id), ("name", vsa.name),
   ("displayName", vsa.display_name),
   ("displayDescription", vsa.display_description),
   ("createTime", vsa.created_at), ("status", vsa.status),
   ("vcType",
     match vsa.vsa_instance_type with
     | some t => if t.isEmpty then Value.null else (Dict.get? t "name").getD .null
     | none => Value.null),
   ("vcCount", vsa.vc_count), ("driveCount", vsa.vol_count)]

/-- `VsaController._items`: project each record of the (already
pagination-limited) fetched list and wrap the result under `vsaSet`. The
result-limiting collaborator `common.limited` is abstracted as the function
`limited` applied to the fetched store. -/
def vsa_items (limited : List VsaRecord → List VsaRecord) (store : List VsaRecord)
    (details : Bool) : Dict :=
  [("vsaSet", .list ((limited store).map (fun v => .dict (vsa_view v details))))]

/-- `VsaController.index`: the summary list (`details=False`). -/
def vsa_index (limited : List VsaRecord → List VsaRecord) (store : List VsaRecord) : Dict :=
  vsa_items limited store false

/-- `VsaController.detail`: the detailed list (`details=True`). -/
def vsa_detail (limited : List VsaRecord → List VsaRecord) (store : List VsaRecord) : Dict :=
  vsa_items limited store true

/-- The process-wide configuration the create path reads
(`FLAGS.default_vsa_instance_type`). -/
structure Flags where
  default_vsa_instance_type : String
  deriving Repr

/-- Modelled from the spec: `instance_types.get_instance_type_by_name` (the
compute instance-type catalog, not under src/) — resolve a requested type name
to its descriptor; an unknown name raises NotFound (here: `none`). -/
def get_instance_type_by_name (catalog : List Dict) (name : Value) : Option Dict :=
  catalog.find? (fun t => (Dict.get? t "name").elim false (fun w => Value.beq w name))

/-- Modelled from the spec: `vsa.API().create` (nova.vsa, not under src/) —
store a new aggregate with the given display metadata and resolved type
descriptor ("response includes `vcType` equal to that default's name", so the
stored record carries the passed descriptor in `vsa_instance_type`); the
storage hint, sharing flag and zone are passed through to provisioning and do
not appear in the viewed fields. -/
def vsa_api_create (newId : Int) (display_name display_description : Value)
    (_storage _shared : Value) (itype : Dict) (_availability_zone : Value) : VsaRecord :=
  { id := newId, name := .str ("vsa-" ++ toString newId),
    display_name := display_name, display_description := display_description,
    created_at := .str "now", status := .str "creating",
    vsa_instance_type := some itype, vc_count := .int 0, vol_count := .int 0 }

/-- `VsaController.create`: a falsy body is a 422 fault; `body['vsa']` is read
with no handler (uncaught KeyError/TypeError on a malformed body); the type
name defaults to the configured default when `vcType` is absent; an unknown
type name is a 404 fault; otherwise the aggregate is created and projected
with `details=True` under `vsa`. -/
def vsa_create (flags : Flags) (catalog : List Dict) (newId : Int)
    (body : Option Dict) : Response × List Call :=
  match body with
  | none => (.unprocessable, [])
  | some b =>
    if b.isEmpty then (.unprocessable, [])
    else
      match Dict.get? b "vsa" with
      | none => (.crash "KeyError", [])
      | some v =>
        match v.asDict? with
        | none => (.crash "TypeError", [])
        | some vsa =>
          let display_name := (Dict.get? vsa "displayName").getD .null
          let display_description := (Dict.get? vsa "displayDescription").getD .null
          let storage := (Dict.get? vsa "storage").getD .null
          let shared := (Dict.get? vsa "shared").getD .null
          let vc_type := (Dict.get? vsa "vcType").getD (.str flags.default_vsa_instance_type)
          match ((Dict.get? vsa "placement").getD (.dict [])).asDict? with
          | none => (.crash "AttributeError", [])
          | some placement =>
            let az := (Dict.get? placement "AvailabilityZone").getD .null
            match get_instance_type_by_name catalog vc_type with
            | none => (.notFound, [.instanceTypeLookup vc_type])
            | some itype =>
              let created := vsa_api_create newId display_name display_description
                               storage shared itype az
              (.ok [("vsa", .dict (vsa_view created true))],
               [.instanceTypeLookup vc_type,
                .vsaCreate display_name display_description storage shared itype az])

/-- Modelled from the spec: `vsa.API().delete` (not under src/) — remove the
aggregate with the id, raising NotFound (here: `none`) when no record carries
it. -/
def vsa_api_delete (store : List VsaRecord) (id : String) :
    Option (List VsaRecord) :=
  match pyInt? id with
  | none => none
  | some n =>
    if store.any (fun v => v.id == n) then
      some (store.filter (fun v => !(v.id == n)))
    else none

/-- `VsaController.delete`: delegate to persistence delete; its NotFound maps
to a 404 fault, success to an accepted response. -/
def vsa_delete (store : List VsaRecord) (id : String) : Response × List Call :=
  match vsa_api_delete store id with
  | none => (.notFound, [.vsaDelete id])
  | some _ => (.accepted, [.vsaDelete id])

end VSA

namespace VSA

/-- A sample stored volume: id 9, owned by aggregate 7 through the from-link
(the spec's scenario record). -/
def testVol : VolumeRecord :=
  { id := 9, name := .str "volume-9", display_name := .str "v", display_description := .null,
    size := .int 3, status := .str "available", availability_zone := .null,
    created_at := .str "t", from_vsa_id := .int 7, to_vsa_id := .null,
    provider_location := .null, provider_auth := .null }

/-- Is the response a success with a body? -/
def Response.isOk : Response → Bool
  | .ok _ => true
  | _ => false

/-- The `vcType` entry of the `vsa`-wrapped view of an aggregate-create
result, when the result is a success whose body holds such a view. -/
def createdVcType (r : Response × List Call) : Option Value :=
  match r.fst with
  | .ok d =>
    match Dict.get? d "vsa" with
    | some (.dict view) => Dict.get? view "vcType"
    | _ => none
  | _ => none

end VSA

namespace VSA

lemma value_beq_int_false {A B : Int} (h : A ≠ B) :
    Value.beq (Value.int A) (Value.int B) = false := by
  simp only [Value.beq, beq_eq_false_iff_ne, ne_eq]
  exact h

lemma check_ok_get_isSome (p : DirectionPolicy) (store : List VolumeRecord)
    (vsa_id id : String) (h : check_volume_ownership p store vsa_id id = .ok) :
    (volume_api_get store id).isSome := by
  unfold check_volume_ownership at h
  cases hg : volume_api_get store id with
  | none => rw [hg] at h; cases h
  | some v => simp

lemma volume_api_update_isSome (store : List VolumeRecord) (id : String)
    (changes : Dict) (h : (volume_api_get store id).isSome) :
    (volume_api_update store id changes).isSome := by
  cases hn : pyInt? id with
  | none => simp [volume_api_get, hn] at h
  | some n =>
    simp only [volume_api_get, hn] at h
    cases hf : store.find? (fun v => v.id == n) with
    | none => simp [hf] at h
    | some v =>
      have hsome : (store.find? (fun v => v.id == n)).isSome := by rw [hf]; rfl
      obtain ⟨x, hx, hpx⟩ := List.find?_isSome.mp hsome
      have hany : store.any (fun v => v.id == n) = true :=
        List.any_eq_true.mpr ⟨x, hx, hpx⟩
      simp [volume_api_update, hn, hany]

lemma check_invalid_of_mismatch (p : DirectionPolicy) (store : List VolumeRecord)
    (A B : Int) (bs cs : String) (R : VolumeRecord)
    (hres : volume_api_get store cs = some R)
    (hown : R.link p.direction = Value.int A)
    (hcoerce : pyInt? bs = some B) (hne : A ≠ B) :
    check_volume_ownership p store bs cs = .invalid := by
  simp [check_volume_ownership, hres, hcoerce, hown, value_beq_int_false hne]

/-- C1: a child record whose owning-link field (as selected by the direction
policy) carries aggregate id `A` is, under any claimed parent id whose coerced
numeric value `B` differs from `A`, rejected by `show`, `update` and `delete`
with the OwnershipMismatch bad-request fault — never a not-found response and
never success — for every request body; the claimed parent id is coerced to an
integer before the equality test. -/
theorem C1_ownership_mismatch (p : DirectionPolicy) (store : List VolumeRecord)
    (A B : Int) (bs cs : String) (R : VolumeRecord) (body : Option Dict)
    (hres : volume_api_get store cs = some R)
    (hown : R.link p.direction = Value.int A)
    (hcoerce : pyInt? bs = some B)
    (hne : A ≠ B) :
    child_show p store bs cs = (Response.badRequest, [Call.volumeGet cs]) ∧
    child_update p store bs cs body = (Response.badRequest, [Call.volumeGet cs]) ∧
    child_delete p store bs cs = (Response.badRequest, [Call.volumeGet cs]) := by
  have hcheck := check_invalid_of_mismatch p store A B bs cs R hres hown hcoerce hne
  refine ⟨?_, ?_, ?_⟩ <;> simp [child_show, child_update, child_delete, hcheck]

/-- C1 witness: volume 9 is owned by aggregate 7 (`from_vsa_id = 7`); showing,
updating or deleting it under aggregate 5 is a bad-request fault. -/
theorem C1_ownership_mismatch_witness :
    child_show volumePolicy [testVol] "5" "9" = (Response.badRequest, [Call.volumeGet "9"]) ∧
    child_update volumePolicy [testVol] "5" "9" none = (Response.badRequest, [Call.volumeGet "9"]) ∧
    child_delete volumePolicy [testVol] "5" "9" = (Response.badRequest, [Call.volumeGet "9"]) :=
  C1_ownership_mismatch volumePolicy [testVol] 7 5 "5" "9" testVol none
    rfl rfl rfl (by decide)

/-- C2: the drive-kind controller's create and update are rejected with the
policy-forbidden bad-request fault for every store contents, parent id, child
id and body, and the returned call trace is empty — no ownership validation
and no persistence call happens. -/
theorem C2_drive_policy_forbidden (store : List VolumeRecord)
    (vsa_id id : String) (body : Option Dict) :
    drive_create store vsa_id body = (Response.badRequest, []) ∧
    drive_update store vsa_id id body = (Response.badRequest, []) :=
  ⟨rfl, rfl⟩

end VSA

namespace VSA

lemma get_filterMap_fields (vol : Dict) (l : List String) (k : String) :
    Dict.get? (l.filterMap (fun f => (Dict.get? vol f).map (fun w => (f, w)))) k =
      if k ∈ l then Dict.get? vol k else none := by
  induction l with
  | nil => simp [Dict.get?]
  | cons f fs ih =>
    rw [List.filterMap_cons]
    cases hv : Dict.get? vol f with
    | none =>
      simp only [Option.map_none']
      rw [ih]
      by_cases hk : k = f
      · subst hk
        simp [hv]
      · simp [List.mem_cons, hk]
    | some w =>
      simp only [Option.map_some']
      by_cases hk : k = f
      · subst hk
        simp [Dict.get?, hv]
      · simp only [Dict.get?, if_neg (Ne.symm hk)]
        rw [ih]
        simp [List.mem_cons, hk]

lemma get_buildChanges (vol : Dict) (k : String) :
    Dict.get? (buildChanges vol) k =
      if k ∈ updatable_fields then Dict.get? vol k else none := by
  simp only [buildChanges]
  exact get_filterMap_fields vol updatable_fields k

/-- C3 counterexample: on the volume-kind create, the body
`{"volume": {}}` — present, but missing the required `size` field — does not
yield a typed client-error response: the controller raises an uncaught
KeyError that escapes to the transport layer. -/
theorem C3_counterexample :
    child_create volumePolicy [] 1 "5" (some [("volume", Value.dict [])]) =
      (Response.crash "KeyError", []) ∧
    Response.isClientError (Response.crash "KeyError") = false :=
  ⟨rfl, rfl⟩

/-- C3 amended: an absent or empty body on create yields the typed 422 client
error on both the child and the aggregate controller; but a nonempty body
missing the wrapping singular-name key, or a child create payload missing the
`size` field, raises an unhandled KeyError that escapes the controller, and a
child update reaching the body read with an absent body raises an unhandled
TypeError. -/
theorem C3_amended_malformed_bodies (p : DirectionPolicy) (store : List VolumeRecord)
    (newId : Int) (vsa_id : String) (flags : Flags) (catalog : List Dict) :
    child_create p store newId vsa_id none = (Response.unprocessable, []) ∧
    child_create p store newId vsa_id (some []) = (Response.unprocessable, []) ∧
    vsa_create flags catalog newId none = (Response.unprocessable, []) ∧
    vsa_create flags catalog newId (some []) = (Response.unprocessable, []) ∧
    (∀ b : Dict, Dict.get? b p.object = none → b.isEmpty = false →
      child_create p store newId vsa_id (some b) = (Response.crash "KeyError", [])) ∧
    (∀ (b vol : Dict), Dict.get? b p.object = some (Value.dict vol) →
      Dict.get? vol "size" = none →
      child_create p store newId vsa_id (some b) = (Response.crash "KeyError", [])) ∧
    (∀ id, check_volume_ownership p store vsa_id id = CheckResult.ok →
      child_update p store vsa_id id none =
        (Response.crash "TypeError", [Call.volumeGet id])) := by
  refine ⟨rfl, rfl, rfl, rfl, ?_, ?_, ?_⟩
  · intro b hkey hne
    simp [child_create, hkey, hne]
  · intro b vol hkey hsize
    cases b with
    | nil => simp [Dict.get?] at hkey
    | cons kv rest =>
      simp [child_create, hkey, Value.asDict?, hsize, Dict.isEmpty]
  · intro id hcheck
    simp [child_update, hcheck]

/-- C3 amended witness: concrete instances — absent body is a 422; a body
missing the wrapping key, and a volume payload missing `size`, crash with
KeyError; an update with ownership passing and an absent body crashes with
TypeError. -/
theorem C3_amended_witness :
    child_create volumePolicy [testVol] 1 "7" none = (Response.unprocessable, []) ∧
    child_create volumePolicy [testVol] 1 "7" (some [("other", Value.null)]) =
      (Response.crash "KeyError", []) ∧
    child_create volumePolicy [testVol] 1 "7" (some [("volume", Value.dict [])]) =
      (Response.crash "KeyError", []) ∧
    child_update volumePolicy [testVol] "7" "9" none =
      (Response.crash "TypeError", [Call.volumeGet "9"]) := by
  have h := C3_amended_malformed_bodies volumePolicy [testVol] 1 "7"
    { default_vsa_instance_type := "vc" } []
  exact ⟨h.1, h.2.2.2.2.1 [("other", Value.null)] rfl rfl,
         h.2.2.2.2.2.1 [("volume", Value.dict [])] [] rfl rfl,
         h.2.2.2.2.2.2 "9" rfl⟩

/-- C4: on a volume-kind update whose ownership check passes and whose body
carries the singular-name payload, the operation succeeds and the persistence
update call receives exactly the payload's whitelisted fields: a key is in the
passed changes iff it is one of the five whitelisted field names and present
in the payload (with the payload's value); everything else is dropped without
an error. -/
theorem C4_update_whitelist (p : DirectionPolicy) (store : List VolumeRecord)
    (vsa_id id : String) (b vol : Dict)
    (hcheck : check_volume_ownership p store vsa_id id = CheckResult.ok)
    (hbody : Dict.get? b p.object = some (Value.dict vol)) :
    child_update p store vsa_id id (some b) =
      (Response.accepted, [Call.volumeGet id, Call.volumeUpdate id (buildChanges vol)]) ∧
    (∀ f, Dict.get? (buildChanges vol) f =
      if f ∈ updatable_fields then Dict.get? vol f else none) := by
  constructor
  · have hsome := volume_api_update_isSome store id (buildChanges vol)
      (check_ok_get_isSome p store vsa_id id hcheck)
    obtain ⟨st, hst⟩ := Option.isSome_iff_exists.mp hsome
    simp [child_update, hcheck, hbody, Value.asDict?, hst]
  · intro f
    exact get_buildChanges vol f

/-- C4 witness: updating volume 9 under its owner 7 with a payload holding a
whitelisted field (`status`) and two non-whitelisted ones (`size`,
`displayName`) passes exactly `{status: err}` to persistence and succeeds. -/
theorem C4_update_whitelist_witness :
    child_update volumePolicy [testVol] "7" "9"
      (some [("volume", Value.dict
        [("status", Value.str "err"), ("size", Value.int 4),
         ("displayName", Value.str "x")])]) =
      (Response.accepted, [Call.volumeGet "9",
        Call.volumeUpdate "9" (buildChanges
          [("status", Value.str "err"), ("size", Value.int 4),
           ("displayName", Value.str "x")])]) ∧
    Dict.get? (buildChanges
        [("status", Value.str "err"), ("size", Value.int 4),
         ("displayName", Value.str "x")]) "status" = some (Value.str "err") ∧
    Dict.get? (buildChanges
        [("status", Value.str "err"), ("size", Value.int 4),
         ("displayName", Value.str "x")]) "size" = none := by
  have h := C4_update_whitelist volumePolicy [testVol] "7" "9"
    [("volume", Value.dict
      [("status", Value.str "err"), ("size", Value.int 4),
       ("displayName", Value.str "x")])]
    [("status", Value.str "err"), ("size", Value.int 4), ("displayName", Value.str "x")]
    rfl rfl
  refine ⟨h.1, ?_, ?_⟩
  · rw [h.2 "status"]; rfl
  · rw [h.2 "size"]; rfl

end VSA

namespace VSA

lemma any_filter_ne_false (l : List VsaRecord) (n : Int) :
    (l.filter (fun v => !(v.id == n))).any (fun v => v.id == n) = false := by
  rw [List.any_eq_false]
  intro x hx
  have hpx := List.of_mem_filter hx
  simpa using hpx

/-- C5: on aggregate create (well-formed body wrapping a `vsa` dict, placement
well-formed), a requested `vcType` that resolves to no catalog descriptor
yields the not-found fault (not a bad request); when `vcType` is absent the
configured default type name is what is resolved — an unknown default also
yields not-found, and a known default descriptor with a name makes the create
succeed with the created aggregate's view reporting that name as `vcType`. -/
theorem C5_create_type_resolution (flags : Flags) (catalog : List Dict) (newId : Int)
    (b vsa : Dict)
    (hb : Dict.get? b "vsa" = some (Value.dict vsa))
    (hplace : ∃ pd, (Dict.get? vsa "placement").getD (Value.dict []) = Value.dict pd) :
    (∀ r, Dict.get? vsa "vcType" = some r → get_instance_type_by_name catalog r = none →
      vsa_create flags catalog newId (some b) =
        (Response.notFound, [Call.instanceTypeLookup r])) ∧
    (Dict.get? vsa "vcType" = none →
      (get_instance_type_by_name catalog (Value.str flags.default_vsa_instance_type) = none →
        vsa_create flags catalog newId (some b) =
          (Response.notFound,
           [Call.instanceTypeLookup (Value.str flags.default_vsa_instance_type)])) ∧
      (∀ t nm,
        get_instance_type_by_name catalog (Value.str flags.default_vsa_instance_type) = some t →
        t.isEmpty = false → Dict.get? t "name" = some nm →
        (vsa_create flags catalog newId (some b)).fst.isOk = true ∧
        createdVcType (vsa_create flags catalog newId (some b)) = some nm)) := by
  obtain ⟨pd, hpd⟩ := hplace
  have hne : b.isEmpty = false := by
    cases b with
    | nil => simp [Dict.get?] at hb
    | cons kv rest => rfl
  refine ⟨?_, ?_⟩
  · intro r hr hlook
    simp [vsa_create, hb, hne, Value.asDict?, hr, hpd, hlook]
  · intro hvc
    refine ⟨?_, ?_⟩
    · intro hlook
      simp [vsa_create, hb, hne, Value.asDict?, hvc, hpd, hlook]
    · intro t nm hlook hteq hnm
      have hout : vsa_create flags catalog newId (some b) =
          (Response.ok [("vsa", Value.dict (vsa_view (vsa_api_create newId
              ((Dict.get? vsa "displayName").getD Value.null)
              ((Dict.get? vsa "displayDescription").getD Value.null)
              ((Dict.get? vsa "storage").getD Value.null)
              ((Dict.get? vsa "shared").getD Value.null) t
              ((Dict.get? pd "AvailabilityZone").getD Value.null)) true))],
           [Call.instanceTypeLookup (Value.str flags.default_vsa_instance_type),
            Call.vsaCreate ((Dict.get? vsa "displayName").getD Value.null)
              ((Dict.get? vsa "displayDescription").getD Value.null)
              ((Dict.get? vsa "storage").getD Value.null)
              ((Dict.get? vsa "shared").getD Value.null) t
              ((Dict.get? pd "AvailabilityZone").getD Value.null)]) := by
        simp [vsa_create, hb, hne, Value.asDict?, hvc, hpd, hlook]
      rw [hout]
      constructor
      · rfl
      · simp [createdVcType, Dict.get?, vsa_view, vsa_api_create, hteq, hnm]

/-- C5 witness: with default type `vc-small` present in the catalog, a create
body with no `vcType` succeeds and reports `vcType = "vc-small"`, while a
requested unknown type `huge` yields the not-found fault. -/
theorem C5_create_type_resolution_witness :
    ((vsa_create { default_vsa_instance_type := "vc-small" }
        [[("name", Value.str "vc-small")]] 1
        (some [("vsa", Value.dict [("displayName", Value.str "arr1"),
                                   ("storage", Value.str "10GB")])])).fst.isOk = true ∧
     createdVcType (vsa_create { default_vsa_instance_type := "vc-small" }
        [[("name", Value.str "vc-small")]] 1
        (some [("vsa", Value.dict [("displayName", Value.str "arr1"),
                                   ("storage", Value.str "10GB")])])) =
       some (Value.str "vc-small")) ∧
    vsa_create { default_vsa_instance_type := "vc-small" }
        [[("name", Value.str "vc-small")]] 1
        (some [("vsa", Value.dict [("vcType", Value.str "huge")])]) =
      (Response.notFound, [Call.instanceTypeLookup (Value.str "huge")]) := by
  constructor
  · have h := C5_create_type_resolution { default_vsa_instance_type := "vc-small" }
      [[("name", Value.str "vc-small")]] 1
      [("vsa", Value.dict [("displayName", Value.str "arr1"),
                           ("storage", Value.str "10GB")])]
      [("displayName", Value.str "arr1"), ("storage", Value.str "10GB")]
      rfl ⟨[], rfl⟩
    exact (h.2 rfl).2 [("name", Value.str "vc-small")] (Value.str "vc-small") rfl rfl rfl
  · have h := C5_create_type_resolution { default_vsa_instance_type := "vc-small" }
      [[("name", Value.str "vc-small")]] 1
      [("vsa", Value.dict [("vcType", Value.str "huge")])]
      [("vcType", Value.str "huge")]
      rfl ⟨[], rfl⟩
    exact h.1 (Value.str "huge") rfl rfl

end VSA

namespace VSA

/-- C6: for every aggregate record and every child record, the summary
projection agrees with the detailed projection on every field, the two field
sets coincide (so the summary's field set is a subset of the detailed one),
and the emitted field sets are exactly the external names — no owning-link
direction tags, no provider credential columns, no row metadata. -/
theorem C6_projection_subset_no_internal (v : VsaRecord) (p : DirectionPolicy)
    (vol : VolumeRecord) (s : String) :
    (∀ k, Dict.get? (vsa_view v false) k = Dict.get? (vsa_view v true) k) ∧
    Dict.keys (vsa_view v false) = Dict.keys (vsa_view v true) ∧
    (∀ k, Dict.get? (translation p vol s false) k =
          Dict.get? (translation p vol s true) k) ∧
    Dict.keys (translation p vol s false) = Dict.keys (translation p vol s true) ∧
    Dict.keys (vsa_view v true) =
      ["id", "name", "displayName", "displayDescription", "createTime",
       "status", "vcType", "vcCount", "driveCount"] ∧
    Dict.keys (translation p vol s true) =
      ["id", "name", "displayName", "displayDescription", "status", "size",
       "availabilityZone", "createdAt", "vsaId"] ∧
    Dict.get? (translation p vol s true) "from_vsa_id" = none ∧
    Dict.get? (translation p vol s true) "to_vsa_id" = none ∧
    Dict.get? (translation p vol s true) "provider_location" = none ∧
    Dict.get? (translation p vol s true) "provider_auth" = none ∧
    Dict.get? (vsa_view v true) "vsa_instance_type" = none :=
  ⟨fun _ => rfl, rfl, fun _ => rfl, rfl, rfl, rfl, rfl, rfl, rfl, rfl, rfl⟩

/-- C7: a volume-kind update whose payload holds no whitelisted field at all
(after the ownership check passes) still succeeds, performing a persistence
update call with an empty changes map — an empty change set is never an
error. -/
theorem C7_empty_changes_accepted (p : DirectionPolicy) (store : List VolumeRecord)
    (vsa_id id : String) (b vol : Dict)
    (hcheck : check_volume_ownership p store vsa_id id = CheckResult.ok)
    (hbody : Dict.get? b p.object = some (Value.dict vol))
    (hnone : ∀ f ∈ updatable_fields, Dict.get? vol f = none) :
    child_update p store vsa_id id (some b) =
      (Response.accepted, [Call.volumeGet id, Call.volumeUpdate id []]) := by
  have hchanges : buildChanges vol = [] := by
    simp only [buildChanges]
    exact List.filterMap_eq_nil_iff.mpr (fun f hf => by rw [hnone f hf]; rfl)
  have hsome := volume_api_update_isSome store id []
    (check_ok_get_isSome p store vsa_id id hcheck)
  obtain ⟨st, hst⟩ := Option.isSome_iff_exists.mp hsome
  simp [child_update, hcheck, hbody, Value.asDict?, hchanges, hst]

/-- C7 witness: updating volume 9 under its owner 7 with a payload holding
only the non-whitelisted field `size` performs an empty-changes persistence
update and succeeds. -/
theorem C7_empty_changes_accepted_witness :
    child_update volumePolicy [testVol] "7" "9"
      (some [("volume", Value.dict [("size", Value.int 4)])]) =
      (Response.accepted, [Call.volumeGet "9", Call.volumeUpdate "9" []]) := by
  refine C7_empty_changes_accepted volumePolicy [testVol] "7" "9"
    [("volume", Value.dict [("size", Value.int 4)])] [("size", Value.int 4)]
    rfl rfl ?_
  intro f hf
  fin_cases hf <;> rfl

/-- C8: deleting an id that has no backing record — for instance one already
deleted — returns the typed not-found client error (never a crash) on both
the aggregate controller and the child controller; and a repeated aggregate
delete after a successful one is not-found, since the first removed the
record. -/
theorem C8_delete_missing_not_found (vstore : List VsaRecord)
    (store : List VolumeRecord) (p : DirectionPolicy) (vsa_id aid cid : String)
    (A C : Int)
    (hA : pyInt? aid = some A) (hnoA : ∀ v ∈ vstore, v.id ≠ A)
    (hC : pyInt? cid = some C) (hnoC : ∀ v ∈ store, v.id ≠ C) :
    vsa_delete vstore aid = (Response.notFound, [Call.vsaDelete aid]) ∧
    child_delete p store vsa_id cid = (Response.notFound, [Call.volumeGet cid]) ∧
    (∀ (vstore₂ st : List VsaRecord), vsa_api_delete vstore₂ aid = some st →
      vsa_delete st aid = (Response.notFound, [Call.vsaDelete aid])) := by
  refine ⟨?_, ?_, ?_⟩
  · have hany : vstore.any (fun v => v.id == A) = false :=
      List.any_eq_false.mpr (fun x hx => by simpa using hnoA x hx)
    simp [vsa_delete, vsa_api_delete, hA, hany]
  · have hfind : store.find? (fun v => v.id == C) = none :=
      List.find?_eq_none.mpr (fun x hx => by simpa using hnoC x hx)
    have hget : volume_api_get store cid = none := by
      simp [volume_api_get, hC, hfind]
    simp [child_delete, check_volume_ownership, hget]
  · intro vstore₂ st hdel
    simp only [vsa_api_delete, hA] at hdel
    by_cases hany : vstore₂.any (fun v => v.id == A) = true
    · rw [if_pos hany] at hdel
      have hst : st = vstore₂.filter (fun v => !(v.id == A)) :=
        (Option.some.inj hdel).symm
      have hany₂ : st.any (fun v => v.id == A) = false := by
        rw [hst]
        exact any_filter_ne_false vstore₂ A
      simp [vsa_delete, vsa_api_delete, hA, hany₂]
    · rw [if_neg hany] at hdel
      cases hdel

/-- C8 witness: with no record for aggregate id 3 nor for child id 9, both
deletes are not-found; and after a successful delete of aggregate 3 from a
one-record store, deleting 3 again is not-found. -/
theorem C8_delete_missing_not_found_witness :
    vsa_delete [] "3" = (Response.notFound, [Call.vsaDelete "3"]) ∧
    child_delete volumePolicy [] "5" "9" =
      (Response.notFound, [Call.volumeGet "9"]) ∧
    (∀ (vstore₂ st : List VsaRecord), vsa_api_delete vstore₂ "3" = some st →
      vsa_delete st "3" = (Response.notFound, [Call.vsaDelete "3"])) :=
  C8_delete_missing_not_found [] [] volumePolicy "5" "3" "9" 3 9
    rfl (by simp) rfl (by simp)

/-- C9: the aggregate view projector reads its detailed flag from no branch at
all — the summary and detailed views of any record are the same mapping — so
the `index` and `detail` list operations produce identical output for the
same fetched records. -/
theorem C9_view_ignores_detail_flag (v : VsaRecord) (d₁ d₂ : Bool)
    (limited : List VsaRecord → List VsaRecord) (store : List VsaRecord) :
    vsa_view v d₁ = vsa_view v d₂ ∧
    vsa_items limited store d₁ = vsa_items limited store d₂ ∧
    vsa_index limited store = vsa_detail limited store :=
  ⟨rfl, rfl, rfl⟩

/-- C10: the update whitelist names the internal snake_case fields, so a
payload key spelled with the external camelCase names `displayName` or
`displayDescription` is never copied into the changes map handed to the
persistence update call, while the snake_case spellings are whitelisted. -/
theorem C10_whitelist_is_snake_case (p : DirectionPolicy) (store : List VolumeRecord)
    (vsa_id id : String) (b vol : Dict)
    (hcheck : check_volume_ownership p store vsa_id id = CheckResult.ok)
    (hbody : Dict.get? b p.object = some (Value.dict vol)) :
    child_update p store vsa_id id (some b) =
      (Response.accepted, [Call.volumeGet id, Call.volumeUpdate id (buildChanges vol)]) ∧
    Dict.get? (buildChanges vol) "displayName" = none ∧
    Dict.get? (buildChanges vol) "displayDescription" = none ∧
    updatable_fields = ["display_name", "display_description", "status",
      "provider_location", "provider_auth"] := by
  refine ⟨?_, ?_, ?_, rfl⟩
  · have hsome := volume_api_update_isSome store id (buildChanges vol)
      (check_ok_get_isSome p store vsa_id id hcheck)
    obtain ⟨st, hst⟩ := Option.isSome_iff_exists.mp hsome
    simp [child_update, hcheck, hbody, Value.asDict?, hst]
  · rw [get_buildChanges]
    simp [updatable_fields]
  · rw [get_buildChanges]
    simp [updatable_fields]

/-- C10 witness: a payload spelling the external names `displayName` and
`displayDescription` produces an empty changes map — neither key reaches
persistence. -/
theorem C10_whitelist_is_snake_case_witness :
    child_update volumePolicy [testVol] "7" "9"
      (some [("volume", Value.dict [("displayName", Value.str "x"),
                                    ("displayDescription", Value.str "y")])]) =
      (Response.accepted, [Call.volumeGet "9",
        Call.volumeUpdate "9" (buildChanges [("displayName", Value.str "x"),
                                             ("displayDescription", Value.str "y")])]) ∧
    Dict.get? (buildChanges [("displayName", Value.str "x"),
                             ("displayDescription", Value.str "y")]) "displayName" = none ∧
    Dict.get? (buildChanges [("displayName", Value.str "x"),
                             ("displayDescription", Value.str "y")]) "displayDescription" = none := by
  have h := C10_whitelist_is_snake_case volumePolicy [testVol] "7" "9"
    [("volume", Value.dict [("displayName", Value.str "x"),
                            ("displayDescription", Value.str "y")])]
    [("displayName", Value.str "x"), ("displayDescription", Value.str "y")]
    rfl rfl
  exact ⟨h.1, h.2.1, h.2.2.1⟩

end VSA
